import Mathlib

/-!
Shallow embedding of `src/metro-ai-suite/smart-nvr/ui/interface/interface.py`
(the Gradio dashboard of the smart-nvr UI).

Modelling conventions:
* Python's dynamically typed values are the mutual inductive `PyVal` /
  `PyEntries` / `PyList` (JSON-like data: `None`, booleans, integers,
  strings, dicts with string keys in insertion order, lists).
* `datetime` values are integers counting seconds since the epoch;
  `timedelta(hours=24)` is `86400`, `timedelta(seconds=d)` is `d`.
* Exceptions raised by the embedded code are `Except String` errors;
  user-facing error *messages* (the code's deliberate returns) are
  ordinary return values, exactly as in the source.
* External collaborators (`process_video`, `fetch_summary_status`,
  `fetch_rules`, `delete_rule_by_id`, `json.loads`, ...) are passed in as
  explicit arguments describing the value they return or the exception
  they raise on the call in question.
* The module-global mutable state (`polling_threads`, the started
  threads and their `threading.Event` stop flags) is threaded through
  explicitly as a `PAPState`; `threading.Event` objects and `Thread`
  objects are identified by freshly allocated numeric ids, and
  `Event.set()` is recorded in a `signalled` list.
-/

mutual
/-- Python run-time value as it occurs in this file: `None`, `bool`,
`int`, `str`, `dict` (string keys, insertion order), `list`. -/
inductive PyVal where
  | vnone : PyVal
  | vbool : Bool → PyVal
  | vint : Int → PyVal
  | vstr : String → PyVal
  | vdict : PyEntries → PyVal
  | vlist : PyList → PyVal
deriving DecidableEq, Repr

/-- Entries of a Python dict, in insertion order. -/
inductive PyEntries where
  | nil : PyEntries
  | cons : String → PyVal → PyEntries → PyEntries
deriving DecidableEq, Repr

/-- A Python list of values. -/
inductive PyList where
  | nil : PyList
  | cons : PyVal → PyList → PyList
deriving DecidableEq, Repr
end

namespace PyEntries

/-- Whether the dict is empty. -/
def isNil : PyEntries → Bool
  | .nil => true
  | .cons _ _ _ => false

/-- Python `d[k]` lookup, first match on the key. -/
def lookup (k : String) : PyEntries → Option PyVal
  | .nil => none
  | .cons k' v rest => if k' = k then some v else lookup k rest

/-- Python `k in d`. -/
def hasKey (k : String) (es : PyEntries) : Bool :=
  (es.lookup k).isSome

/-- The keys of the dict in insertion order (`list(d.keys())`). -/
def keys : PyEntries → List String
  | .nil => []
  | .cons k _ rest => k :: keys rest

/-- The items of the dict in insertion order (`d.items()`). -/
def items : PyEntries → List (String × PyVal)
  | .nil => []
  | .cons k v rest => (k, v) :: items rest

/-- Python `d[k] = v`: replace in place if the key exists, else append. -/
def assign (k : String) (v : PyVal) : PyEntries → PyEntries
  | .nil => .cons k v .nil
  | .cons k' v' rest =>
      if k' = k then .cons k v rest else .cons k' v' (assign k v rest)

end PyEntries

namespace PyList

/-- Whether the list is empty. -/
def isNil : PyList → Bool
  | .nil => true
  | .cons _ _ => false

/-- The list's elements as a Lean list. -/
def toList : PyList → List PyVal
  | .nil => []
  | .cons v rest => v :: toList rest

end PyList

namespace PyVal

/-- Python truthiness (`bool(v)`), as used by `if not raw_id`, `if summaries`,
`if results`, `if video_id or message`. -/
def truthy : PyVal → Bool
  | .vnone => false
  | .vbool b => b
  | .vint n => n != 0
  | .vstr s => !s.isEmpty
  | .vdict es => !es.isNil
  | .vlist xs => !xs.isNil

/-- Whether the value is a dict (`isinstance(v, dict)`). -/
def isDict : PyVal → Bool
  | .vdict _ => true
  | _ => false

/-- The name of the value's Python type, for exception texts. -/
def typeName : PyVal → String
  | .vnone => "NoneType"
  | .vbool _ => "bool"
  | .vint _ => "int"
  | .vstr _ => "str"
  | .vdict _ => "dict"
  | .vlist _ => "list"

/-- Python `v.get(k, dflt)`: an `AttributeError` unless `v` is a dict. -/
def get (v : PyVal) (k : String) (dflt : PyVal) : Except String PyVal :=
  match v with
  | .vdict es => .ok ((es.lookup k).getD dflt)
  | w => .error ("AttributeError: \x27" ++ w.typeName ++
      "\x27 object has no attribute \x27get\x27")

/-- Python `v[k]` on a dict: `KeyError` when absent, `TypeError` on a
non-dict value. -/
def getItem (v : PyVal) (k : String) : Except String PyVal :=
  match v with
  | .vdict es =>
      match es.lookup k with
      | some w => .ok w
      | none => .error ("KeyError: \x27" ++ k ++ "\x27")
  | w => .error ("TypeError: \x27" ++ w.typeName ++
      "\x27 object is not subscriptable")

/-- Python `v.items()`: an `AttributeError` unless `v` is a dict. -/
def itemsOf (v : PyVal) : Except String (List (String × PyVal)) :=
  match v with
  | .vdict es => .ok es.items
  | w => .error ("AttributeError: \x27" ++ w.typeName ++
      "\x27 object has no attribute \x27items\x27")

/-- Python iteration `for x in v`: lists yield elements, dicts yield keys,
strings yield one-character strings, anything else raises `TypeError`. -/
def iterate : PyVal → Except String (List PyVal)
  | .vlist xs => .ok xs.toList
  | .vdict es => .ok (es.keys.map .vstr)
  | .vstr s => .ok (s.data.map (fun c => .vstr (String.mk [c])))
  | w => .error ("TypeError: \x27" ++ w.typeName ++
      "\x27 object is not iterable")

end PyVal

/-- Embedding of `extract_summary_id` (interface.py lines 161-166):
falsy input gives `None`; a (necessarily non-empty) dict gives its first
key; any other truthy value is returned unchanged. -/
def extract_summary_id (raw_id : PyVal) : PyVal :=
  if raw_id.truthy = false then .vnone
  else
    match raw_id with
    | .vdict (.cons k _ _) => .vstr k
    | v => v

/-- A run of `n` spaces, for JSON indentation. -/
def spaces (n : Nat) : String :=
  String.mk (List.replicate n ' ')

/-- Escape one character for a JSON string literal. -/
def jsonEscapeChar (c : Char) : String :=
  if c = '"' then "\\\""
  else if c = '\\' then "\\\\"
  else if c = '\n' then "\\n"
  else String.mk [c]

/-- Escape a string for a JSON string literal. -/
def jsonEscape (s : String) : String :=
  s.data.foldl (fun acc c => acc ++ jsonEscapeChar c) ""

mutual
/-- Embedding of `json.dumps(v, indent=2)` at indentation depth `ind`
(the number of spaces the enclosing container indents its members by). -/
def jsonDumpVal (ind : Nat) : PyVal → String
  | .vnone => "null"
  | .vbool true => "true"
  | .vbool false => "false"
  | .vint n => toString n
  | .vstr s => "\"" ++ jsonEscape s ++ "\""
  | .vdict .nil => "\x7b\x7d"
  | .vdict (.cons k v rest) =>
      "\x7b\n" ++ jsonDumpEntries (ind + 2) k v rest ++ "\n" ++ spaces ind ++ "\x7d"
  | .vlist .nil => "[]"
  | .vlist (.cons v rest) =>
      "[\n" ++ jsonDumpItems (ind + 2) v rest ++ "\n" ++ spaces ind ++ "]"
termination_by v => sizeOf v

/-- The members of a JSON object, one per line, comma separated. -/
def jsonDumpEntries (ind : Nat) (k : String) (v : PyVal) : PyEntries → String
  | .nil => spaces ind ++ "\"" ++ jsonEscape k ++ "\": " ++ jsonDumpVal ind v
  | .cons k' v' rest =>
      spaces ind ++ "\"" ++ jsonEscape k ++ "\": " ++ jsonDumpVal ind v ++ ",\n" ++
        jsonDumpEntries ind k' v' rest
termination_by rest => sizeOf v + sizeOf rest

/-- The members of a JSON array, one per line, comma separated. -/
def jsonDumpItems (ind : Nat) (v : PyVal) : PyList → String
  | .nil => spaces ind ++ jsonDumpVal ind v
  | .cons v' rest =>
      spaces ind ++ jsonDumpVal ind v ++ ",\n" ++ jsonDumpItems ind v' rest
termination_by rest => sizeOf v + sizeOf rest
end

/-- Embedding of `json.dumps(v, indent=2)`. -/
def jsonDumps2 (v : PyVal) : String :=
  jsonDumpVal 0 v

mutual
/-- Python `repr(v)` (strings single-quoted; escaping of exotic
characters inside `repr` of a string is not modelled). -/
def pyRepr : PyVal → String
  | .vnone => "None"
  | .vbool true => "True"
  | .vbool false => "False"
  | .vint n => toString n
  | .vstr s => "\x27" ++ s ++ "\x27"
  | .vdict es => "\x7b" ++ pyReprEntries es ++ "\x7d"
  | .vlist xs => "[" ++ pyReprItems xs ++ "]"

/-- Python `repr` of a dict's entries, comma separated. -/
def pyReprEntries : PyEntries → String
  | .nil => ""
  | .cons k v .nil => "\x27" ++ k ++ "\x27: " ++ pyRepr v
  | .cons k v rest => "\x27" ++ k ++ "\x27: " ++ pyRepr v ++ ", " ++ pyReprEntries rest

/-- Python `repr` of a list's elements, comma separated. -/
def pyReprItems : PyList → String
  | .nil => ""
  | .cons v .nil => pyRepr v
  | .cons v rest => pyRepr v ++ ", " ++ pyReprItems rest
end

/-- Python `str(v)`, as used by f-string interpolation: a string is
itself, everything else as `repr`. -/
def pyStr (v : PyVal) : String :=
  match v with
  | .vstr s => s
  | w => pyRepr w

/-- Python `str.title()`: each alphabetic character following a
non-alphabetic one is upper-cased, later letters of a word lower-cased. -/
def pyTitle (s : String) : String :=
  String.mk ((s.data.foldl
    (fun (acc : List Char × Bool) c =>
      let c' := if acc.2 then c.toLower else c.toUpper
      (c' :: acc.1, c.isAlpha))
    ([], false)).1.reverse)

/-- The value the `duration` widget delivers, seen through `int(duration)`
(interface.py line 238): `dnum n` when `int(duration)` succeeds and
yields `n`, `dbad` when it raises (non-numeric input, `None`, ...). -/
inductive DurationInput where
  | dnum (n : Int)
  | dbad
deriving DecidableEq, Repr

/-- One entry of the module-global `polling_threads` dict: the started
`threading.Thread` and its `threading.Event` stop flag, identified by
allocation ids. -/
structure PollEntry where
  thread : Nat
  stop : Nat
deriving DecidableEq, Repr

/-- A recorded invocation of the `process_video` collaborator with its
arguments (interface.py line 170). -/
structure PVCall where
  camera : String
  start : Int
  duration : DurationInput
  action : String
deriving DecidableEq, Repr

/-- The module-global mutable state touched by `process_and_poll`:
the `polling_threads` dict, which `Event`s have been `set()`, which
`Thread`s have been `start()`ed, a fresh-id supply for new `Event` /
`Thread` objects, and the trace of `process_video` invocations. -/
structure PAPState where
  pollingThreads : List (PyVal × PollEntry)
  signalled : List Nat
  started : List Nat
  nextId : Nat
  pvCalls : List PVCall
deriving DecidableEq, Repr

/-- Lookup in the `polling_threads` dict (`summary_id in polling_threads`
/ `polling_threads[summary_id]`). -/
def pollLookup (m : List (PyVal × PollEntry)) (k : PyVal) : Option PollEntry :=
  match m with
  | [] => none
  | (k', v) :: rest => if k' = k then some v else pollLookup rest k

/-- Python `polling_threads[summary_id] = entry`: replace in place when
the key exists, append otherwise. -/
def pollAssign (m : List (PyVal × PollEntry)) (k : PyVal) (v : PollEntry) :
    List (PyVal × PollEntry) :=
  match m with
  | [] => [(k, v)]
  | (k', v') :: rest =>
      if k' = k then (k, v) :: rest else (k', v') :: pollAssign rest k v

/-- Embedding of `process_and_poll` (interface.py lines 169-189).
`pv` is the value the `process_video` collaborator returns for this
invocation; the invocation itself is recorded in `pvCalls`.  For an
action other than `"Add to Search"`, a successful result with a truthy
summary id first signals the stop event of an existing poll loop for the
same id, then starts a fresh thread and registers it under the id. -/
def process_and_poll (camera : String) (start : Int) (duration : DurationInput)
    (action : String) (pv : PyVal) (st₀ : PAPState) :
    Except String (PyVal × PAPState) :=
  let st := { st₀ with pvCalls := st₀.pvCalls ++ [⟨camera, start, duration, action⟩] }
  let result := pv
  if action = "Add to Search" then .ok (result, st)
  else do
    let raw_id ← result.get "summary_id" .vnone
    let summary_id := extract_summary_id raw_id
    let statusv ← result.getItem "status"
    if statusv = PyVal.vstr "success" ∧ summary_id.truthy = true then
      let st :=
        match pollLookup st.pollingThreads summary_id with
        | some entry => { st with signalled := st.signalled ++ [entry.stop] }
        | none => st
      let stop_event := st.nextId
      let thread := st.nextId + 1
      let st := { st with
        nextId := st.nextId + 2
        started := st.started ++ [thread]
        pollingThreads := pollAssign st.pollingThreads summary_id ⟨thread, stop_event⟩ }
      .ok (result, st)
    else
      .ok (result, st)

/-- The `start` value delivered by the `gr.DateTime` widget, as classified
by the `isinstance` chain of interface.py lines 202-206: a `float` or
`int` POSIX timestamp (in whole seconds), a `datetime` (as seconds since
the epoch), or a value of any other type. -/
inductive StartInput where
  | sfloat (t : Int)
  | sint (t : Int)
  | sdatetime (t : Int)
  | sother
deriving DecidableEq, Repr

/-- The normalisation of `start` to a `datetime` (lines 202-206): floats
and ints go through `datetime.fromtimestamp`, datetimes are kept, any
other type makes `wrapper_fn` return the invalid-format error. -/
def startToTime : StartInput → Option Int
  | .sfloat t => some t
  | .sint t => some t
  | .sdatetime t => some t
  | .sother => none

/-- A `gr.update(...)` value: which fields the update sets. -/
structure GrUpdate where
  value : Option PyVal
  visible : Option Bool
deriving DecidableEq, Repr

/-- The 6-tuple `wrapper_fn` returns, bound by the UI to
`(result, toast_output, close_toast_btn, summary_id_state,
status_output, polling_enabled_state)`. -/
structure WrapperRet where
  result : Option PyVal
  toast : GrUpdate
  closeBtn : GrUpdate
  summaryId : PyVal
  statusBox : GrUpdate
  pollingEnabled : Bool
deriving DecidableEq, Repr

/-- One line of the auto-polling markdown (interface.py lines 132-143):
the `status` key gets an emoji, every other key is title-cased. -/
def summaryStatusLine (k : String) (v : PyVal) : String :=
  if k = "status" then
    let status_emoji :=
      if v = PyVal.vstr "completed" then "✅"
      else if v = PyVal.vstr "failed" then "❌" else "⏳"
    "**Status:** " ++ status_emoji ++ " " ++ pyStr v ++ "\n\n"
  else
    "**" ++ pyTitle (k.replace "_" " ") ++ ":** " ++ pyStr v ++ "\n\n"

/-- The full auto-polling markdown for one response dict
(interface.py lines 130-143). -/
def formatStatusMarkdown (summary_id : String) (es : PyEntries) : String :=
  es.items.foldl (fun md kv => md ++ summaryStatusLine kv.1 kv.2)
    ("## Summary Status (Auto-Polling)\n\n**Summary ID:** `" ++ summary_id ++ "`\n\n")

/-- The markdown written on the exception path of the poll loop
(interface.py line 154). -/
def pollErrorMarkdown (e : String) : String :=
  "## Error\n\n❌ **Error fetching status:** " ++ e

/-- What `fetch_summary_status` returned on one poll iteration, as
classified by interface.py lines 113-124: a string (together with what
`json.loads` on it yields or raises), a dict, or a value of any other
type (carried as its type's name). -/
inductive RawResponse where
  | rstr (s : String) (parsed : Except String PyVal)
  | rdict (es : PyEntries)
  | rother (ty : String)
deriving Repr

/-- One invocation of the `fetch_summary_status` collaborator: the value
it returned, or the exception it raised. -/
inductive FetchCall where
  | returns (r : RawResponse)
  | raises (msg : String)
deriving Repr

/-- The outcome of one iteration of the poll loop's body: `brk` leaves
the `while` (terminal status or exception), `cont` falls through to
`time.sleep(10)` and the next check.  Either way the payload is the
value the local variable `status_output` was rebound to. -/
inductive IterOut where
  | brk (status_output : String)
  | cont (status_output : String)
deriving DecidableEq, Repr

/-- Whether the iteration fell through to `time.sleep(10)`. -/
def IterOut.isCont : IterOut → Bool
  | .brk _ => false
  | .cont _ => true

/-- Handling of a parsed response (interface.py lines 126-150): on a
non-dict, `response.get` raises `AttributeError` into the `except`
branch; on a dict the status markdown is produced, and the loop breaks
exactly when the status is `completed` or `failed`. -/
def pollHandleResponse (summary_id : String) (response : PyVal) : IterOut :=
  match response with
  | .vdict es =>
      let status := (es.lookup "status").getD (.vstr "unknown")
      let md := formatStatusMarkdown summary_id es
      if status = PyVal.vstr "completed" ∨ status = PyVal.vstr "failed" then .brk md
      else .cont md
  | w =>
      .brk (pollErrorMarkdown ("AttributeError: \x27" ++ w.typeName ++
        "\x27 object has no attribute \x27get\x27"))

/-- The body of one iteration of `poll_summary_status`'s `while` loop
(interface.py lines 110-156): the `try` block normalises the raw
response (empty string and wrong type raise `ValueError`), any exception
is converted to the error markdown and breaks the loop.  The incoming
value of the local `status_output` is never read by the body, so it is
not a parameter. -/
def pollIter (summary_id : String) (call : FetchCall) : IterOut :=
  match call with
  | .raises m => .brk (pollErrorMarkdown m)
  | .returns raw =>
      match raw with
      | .rstr s parsed =>
          if (s.trim).isEmpty then
            .brk (pollErrorMarkdown "Empty response received from fetch_summary_status.")
          else
            match parsed with
            | .error m => .brk (pollErrorMarkdown m)
            | .ok response => pollHandleResponse summary_id response
      | .rdict es => pollHandleResponse summary_id (.vdict es)
      | .rother ty =>
          .brk (pollErrorMarkdown ("Invalid response type: <class \x27" ++ ty ++ "\x27>"))

/-- Everything outside the poll loop's own local variables that the UI
can observe: the value of the `status_output` `gr.Markdown` component
and the toast textbox.  The loop receives the *value* of the component,
not a reference to it. -/
structure SharedUI where
  statusMarkdown : String
  toastMessage : String
deriving DecidableEq, Repr

/-- How a run of the poll loop ended: the stop event was found set, the
body broke out (terminal status or exception), or the modelling fuel ran
out while the loop was still re-checking. -/
inductive LoopExit where
  | stopped
  | broke
  | fuelOut
deriving DecidableEq, Repr

/-- The observable outcome of a run of the poll loop: the final value of
the local `status_output`, the shared UI state, how the loop ended, and
the total seconds spent in `time.sleep(10)`. -/
structure PollRun where
  status_output : String
  shared : SharedUI
  exit : LoopExit
  sleptSeconds : Nat
deriving DecidableEq, Repr

/-- Embedding of `poll_summary_status` (interface.py lines 108-158),
run with `fuel` remaining loop entries, starting at check index `k`.
`fetch k` / `stopSet k` describe the collaborator call and the
`stop_event.is_set()` answer of check `k`.  The Python statements
`status_output = markdown_output` and `status_output = error_markdown`
rebind the function-local name only — strings are immutable and the
parameter holds a value, not a reference — which the embedding renders
as the local `status_output` changing while `shared` is carried through
the recursion. -/
def poll_summary_status (summary_id : String) (fetch : Nat → FetchCall)
    (stopSet : Nat → Bool) : Nat → Nat → String → SharedUI → PollRun
  | 0, _, status_output, shared => ⟨status_output, shared, .fuelOut, 0⟩
  | fuel + 1, k, status_output, shared =>
    if stopSet k then ⟨status_output, shared, .stopped, 0⟩
    else
      match pollIter summary_id (fetch k) with
      | .brk out => ⟨out, shared, .broke, 0⟩
      | .cont out =>
          let r := poll_summary_status summary_id fetch stopSet fuel (k + 1) out shared
          ⟨r.status_output, r.shared, r.exit, r.sleptSeconds + 10⟩

/-- Python `isinstance(v, dict) and k in v` in one step. -/
def pyHasKey (v : PyVal) (k : String) : Bool :=
  match v with
  | .vdict es => es.hasKey k
  | _ => false

/-- The inner loop of `format_summary_responses` (interface.py lines
359-362): one row per summary of a rule, with the summary text defaulted
to `"No summary text"`. -/
def summaryInnerRows (rule_id : String) :
    List (String × PyVal) → Except String (List (List PyVal))
  | [] => .ok []
  | (summary_id, message) :: rest => do
      let text ← message.get "summary" (.vstr "No summary text")
      let tl ← summaryInnerRows rule_id rest
      .ok ([.vstr rule_id, .vstr summary_id, text] :: tl)

/-- The outer loop of `format_summary_responses` (interface.py lines
357-364): a rule with falsy summaries contributes the single placeholder
row, otherwise one row per summary. -/
def summaryOuterRows : List (String × PyVal) → Except String (List (List PyVal))
  | [] => .ok []
  | (rule_id, summaries) :: rest => do
      let hd ←
        if summaries.truthy then do
          let sitems ← summaries.itemsOf
          summaryInnerRows rule_id sitems
        else
          pure [[.vstr rule_id, .vstr "", .vstr "No summaries available."]]
      let tl ← summaryOuterRows rest
      .ok (hd ++ tl)

/-- Embedding of `format_summary_responses` (interface.py lines 347-366).
`data` is what the `fetch_rule_responses` collaborator returned: an
error payload gives the fixed failure row, otherwise the per-rule rows
are flattened in order. -/
def format_summary_responses (data : PyVal) : Except String (List (List PyVal)) :=
  if data.isDict && pyHasKey data "error" then
    .ok [[.vstr "-", .vstr "-",
      .vstr "❌ Failed to retrieve summary from summarization service"]]
  else do
    let itms ← data.itemsOf
    summaryOuterRows itms

/-- The inner loop of `format_search_responses` (interface.py lines
373-379): a result item with a truthy video id or message contributes
its own row, otherwise the no-event placeholder row. -/
def searchItemRows (rule_id : String) :
    List PyVal → Except String (List (List PyVal))
  | [] => .ok []
  | item :: rest => do
      let video_id ← item.get "video_id" (.vstr "")
      let message ← item.get "message" (.vstr "")
      let row :=
        if video_id.truthy || message.truthy then [.vstr rule_id, video_id, message]
        else [.vstr rule_id, .vstr "", .vstr "No event occurred for this rule."]
      let tl ← searchItemRows rule_id rest
      .ok (row :: tl)

/-- The outer loop of `format_search_responses` (interface.py lines
371-381): a rule with falsy results contributes the single placeholder
row, otherwise one row per result item. -/
def searchOuterRows : List (String × PyVal) → Except String (List (List PyVal))
  | [] => .ok []
  | (rule_id, results) :: rest => do
      let hd ←
        if results.truthy then do
          let elems ← results.iterate
          searchItemRows rule_id elems
        else
          pure [[.vstr rule_id, .vstr "", .vstr "No search results available."]]
      let tl ← searchOuterRows rest
      .ok (hd ++ tl)

/-- Embedding of `format_search_responses` (interface.py lines 368-382).
`data` is what the `fetch_search_responses` collaborator returned. -/
def format_search_responses (data : PyVal) : Except String (List (List PyVal)) := do
  let itms ← data.itemsOf
  searchOuterRows itms

/-- A routing rule as returned by the `fetch_rules` collaborator. -/
structure Rule where
  id : String
  camera : String
  label : String
  action : String
deriving DecidableEq, Repr

/-- Embedding of `load_rules` (interface.py lines 636-641): one table
row per rule, the last column holding the delete marker. -/
def load_rules (rules : List Rule) : List (List String) :=
  rules.map (fun r => [r.id, r.camera, r.label, r.action, "🗑️ Delete"])

/-- One invocation of the `delete_rule_by_id` collaborator: the value it
returns, or the exception it raises. -/
inductive DeleteCall where
  | returns (v : PyVal)
  | raises (msg : String)
deriving DecidableEq, Repr

/-- What `delete_selected_rule` produces: the two outputs bound to the
deletion-status textbox and the rules table, plus the trace of rule ids
passed to `delete_rule_by_id`. -/
structure DeleteOutcome where
  message : PyVal
  table : List (List String)
  deleted : List String
deriving DecidableEq, Repr

/-- Embedding of `delete_selected_rule` (interface.py lines 643-661).
`evtValue` / `evtRow` are `evt.value` and `evt.row_value` of the table
selection; `del` is the `delete_rule_by_id` collaborator's behaviour,
`rules` what `fetch_rules` returns inside `load_rules`.  Only a click on
the delete marker attempts a deletion; an empty row raises `IndexError`
into the `except` branch. -/
def delete_selected_rule (evtValue : String) (evtRow : List String)
    (del : DeleteCall) (rules : List Rule) : DeleteOutcome :=
  if evtValue = "🗑️ Delete" then
    match evtRow with
    | [] =>
        { message := .vstr "❌ Error: list index out of range"
          table := load_rules rules
          deleted := [] }
    | rule_id :: _ =>
        match del with
        | .returns v =>
            { message := v, table := load_rules rules, deleted := [rule_id] }
        | .raises m =>
            { message := .vstr ("❌ Error: " ++ m)
              table := load_rules rules
              deleted := [rule_id] }
  else
    { message := .vstr "Click the delete icon (🗑️) to remove a rule"
      table := load_rules rules
      deleted := [] }

/-- The early-return tuple of `wrapper_fn`'s validation failures
(interface.py lines 207-214, 217-261): no result, the toast shows the
error message, the close button becomes visible, the previous summary id
is kept, the status box is cleared, polling stays disabled. -/
def errorReturn (msg : String) (previous_summary_id : PyVal) : WrapperRet :=
  { result := none
    toast := { value := some (.vstr msg), visible := some true }
    closeBtn := { value := none, visible := some true }
    summaryId := previous_summary_id
    statusBox := { value := some (.vstr ""), visible := none }
    pollingEnabled := false }

/-- Embedding of `wrapper_fn` (interface.py lines 190-288). `now` is
`datetime.now()` in seconds; `pv` is the value `process_video` would
return if invoked.  Validation failures return the corresponding
`errorReturn` without touching the polling state (in particular without
recording a `process_video` call); valid submissions are forwarded to
`process_and_poll`. -/
def wrapper_fn (now : Int) (camera : String) (start : StartInput)
    (duration : DurationInput) (action : String)
    (previous_summary_id : PyVal) (pv : PyVal) (st : PAPState) :
    Except String (WrapperRet × PAPState) :=
  let min_time := now - 86400
  match startToTime start with
  | none =>
      .ok (errorReturn "❌ Error: Invalid start time format." previous_summary_id, st)
  | some startT =>
    if startT > now then
      .ok (errorReturn "❌ Error: Start time cannot be in the future." previous_summary_id, st)
    else if startT < min_time then
      .ok (errorReturn "❌ Error: Start time must be within the last 24 hours." previous_summary_id, st)
    else
      match duration with
      | .dbad =>
          .ok (errorReturn "❌ Error: Duration must be a number greater than 0 seconds." previous_summary_id, st)
      | .dnum duration_sec =>
        if duration_sec ≤ 0 then
          .ok (errorReturn "❌ Error: Duration must be a number greater than 0 seconds." previous_summary_id, st)
        else
          let end_time := startT + duration_sec
          if end_time > now then
            .ok (errorReturn "❌ Error: End time (start + duration) cannot be in the future." previous_summary_id, st)
          else do
            let (result_dict, st') ← process_and_poll camera startT duration action pv st
            let message ← result_dict.get "message" (.vstr (jsonDumps2 result_dict))
            if action = "Summarize" then
              let raw_summary ← result_dict.get "summary_id" .vnone
              let summary_id := extract_summary_id raw_summary
              .ok ({ result := some result_dict
                     toast := { value := some message, visible := some true }
                     closeBtn := { value := none, visible := some true }
                     summaryId := summary_id
                     statusBox := { value := some (.vstr "Processing..."), visible := none }
                     pollingEnabled := true }, st')
            else
              .ok ({ result := some result_dict
                     toast := { value := some message, visible := some true }
                     closeBtn := { value := none, visible := some true }
                     summaryId := previous_summary_id
                     statusBox := { value := some (.vstr ""), visible := none }
                     pollingEnabled := false }, st')

/-- Looking up the key just assigned into the `polling_threads` dict
finds the new entry. -/
theorem pollLookup_pollAssign_self (m : List (PyVal × PollEntry))
    (k : PyVal) (v : PollEntry) : pollLookup (pollAssign m k v) k = some v := by
  induction m with
  | nil => simp [pollAssign, pollLookup]
  | cons hd tl ih =>
      obtain ⟨k', v'⟩ := hd
      by_cases h : k' = k
      · simp [pollAssign, pollLookup, h]
      · simp [pollAssign, pollLookup, h, ih]

/-- C7: the formatted summary table for `fetch_rule_responses()`
returning the single rule `"r1"` with an empty summaries dict is exactly
the one placeholder row `["r1", "", "No summaries available."]`. -/
theorem format_summary_responses_r1_empty :
    format_summary_responses (.vdict (.cons "r1" (.vdict .nil) .nil)) =
      .ok [[.vstr "r1", .vstr "", .vstr "No summaries available."]] := by
  rfl

/-- C8: the formatted search table for `fetch_search_responses()`
returning rule `"r1"` with one result item whose `video_id` and
`message` are both empty is exactly the placeholder row
`["r1", "", "No event occurred for this rule."]`. -/
theorem format_search_responses_r1_empty_fields :
    format_search_responses
        (.vdict (.cons "r1"
          (.vlist (.cons
            (.vdict (.cons "video_id" (.vstr "")
              (.cons "message" (.vstr "") .nil))) .nil)) .nil)) =
      .ok [[.vstr "r1", .vstr "", .vstr "No event occurred for this rule."]] := by
  rfl

/-- C9: a table selection whose cell value is not the delete marker
`"🗑️ Delete"` never invokes `delete_rule_by_id` (the `deleted` trace is
empty) and returns the prompt text together with a freshly loaded rules
table. -/
theorem delete_selected_rule_non_marker (evtValue : String)
    (evtRow : List String) (del : DeleteCall) (rules : List Rule)
    (h : evtValue ≠ "🗑️ Delete") :
    delete_selected_rule evtValue evtRow del rules =
      { message := .vstr "Click the delete icon (🗑️) to remove a rule"
        table := load_rules rules
        deleted := [] } := by
  simp [delete_selected_rule, h]

/-- Witness for C9 at a concrete non-marker selection. -/
theorem delete_selected_rule_non_marker_witness :
    "r1" ≠ "🗑️ Delete" ∧
    delete_selected_rule "r1" ["r1", "cam", "person", "Summarize", "🗑️ Delete"]
        (.returns (.vstr "deleted")) [⟨"r1", "cam", "person", "Summarize"⟩] =
      { message := .vstr "Click the delete icon (🗑️) to remove a rule"
        table := [["r1", "cam", "person", "Summarize", "🗑️ Delete"]]
        deleted := [] } :=
  ⟨by decide, by
    rw [delete_selected_rule_non_marker "r1" _ _ _ (by decide)]
    rfl⟩

/-- The result of `extract_summary_id` is never a dict. -/
theorem extract_summary_id_not_dict (v : PyVal) :
    (extract_summary_id v).isDict = false := by
  rcases v with _ | b | n | s | es | xs
  · rfl
  · cases b <;> rfl
  · by_cases h : n = 0
    · subst h; rfl
    · simp [extract_summary_id, PyVal.truthy, h, PyVal.isDict]
  · by_cases h : s.isEmpty
    · simp [extract_summary_id, PyVal.truthy, h, PyVal.isDict]
    · simp [extract_summary_id, PyVal.truthy, h, PyVal.isDict]
  · rcases es with _ | ⟨k, w, rest⟩
    · rfl
    · simp [extract_summary_id, PyVal.truthy, PyEntries.isNil, PyVal.isDict]
  · rcases xs with _ | ⟨w, rest⟩
    · rfl
    · simp [extract_summary_id, PyVal.truthy, PyList.isNil, PyVal.isDict]

/-- A falsy raw id is mapped to `None`. -/
theorem extract_summary_id_falsy (v : PyVal) (h : v.truthy = false) :
    extract_summary_id v = .vnone := by
  simp [extract_summary_id, h]

/-- A non-empty dict is mapped to its first key. -/
theorem extract_summary_id_first_key (k : String) (w : PyVal) (es : PyEntries) :
    extract_summary_id (.vdict (.cons k w es)) = .vstr k := by
  simp [extract_summary_id, PyVal.truthy, PyEntries.isNil]

/-- A truthy value that is not a dict is returned unchanged. -/
theorem extract_summary_id_truthy_non_dict (v : PyVal) (ht : v.truthy = true)
    (hd : v.isDict = false) : extract_summary_id v = v := by
  rcases v with _ | b | n | s | es | xs
  · cases ht
  · simp [extract_summary_id, ht]
  · simp [extract_summary_id, ht]
  · simp [extract_summary_id, ht]
  · simp [PyVal.isDict] at hd
  · simp [extract_summary_id, ht]

/-- C10: `extract_summary_id` is total over `PyVal`: every falsy input
(`None`, `""`, the empty dict, but also `0` and `False`) gives `None`;
a non-empty dict gives its first key; any other truthy value is returned
unchanged; and the output is never a dict, so the polling key registered
for a job is never a dict. -/
theorem extract_summary_id_total (v : PyVal) :
    (extract_summary_id v).isDict = false ∧
    (v.truthy = false → extract_summary_id v = .vnone) ∧
    (∀ k w es, v = .vdict (.cons k w es) → extract_summary_id v = .vstr k) ∧
    (v.truthy = true → v.isDict = false → extract_summary_id v = v) := by
  refine ⟨extract_summary_id_not_dict v, extract_summary_id_falsy v, ?_,
    extract_summary_id_truthy_non_dict v⟩
  intro k w es he
  subst he
  exact extract_summary_id_first_key k w es

/-- Witness for C10 at concrete inputs: a non-empty dict yields its
first key, a falsy input yields `None`. -/
theorem extract_summary_id_total_witness :
    extract_summary_id (.vdict (.cons "abc123" .vnone .nil)) = .vstr "abc123" ∧
    extract_summary_id (.vstr "") = .vnone :=
  ⟨(extract_summary_id_total (.vdict (.cons "abc123" .vnone .nil))).2.2.1
      "abc123" .vnone .nil rfl,
   (extract_summary_id_total (.vstr "")).2.1 (by decide)⟩

/-- C1: a submission whose start time is in the future, or strictly more
than 24 hours in the past, is rejected by `wrapper_fn` with the
corresponding literal error message, and the state is returned
untouched — in particular `pvCalls` records no `process_video`
invocation. -/
theorem wrapper_fn_rejects_out_of_window_start (now : Int) (camera : String)
    (start : StartInput) (duration : DurationInput) (action : String)
    (prev pv : PyVal) (st : PAPState) (t : Int)
    (hs : startToTime start = some t) :
    (t > now →
      wrapper_fn now camera start duration action prev pv st =
        .ok (errorReturn "❌ Error: Start time cannot be in the future." prev, st)) ∧
    (t < now - 86400 →
      wrapper_fn now camera start duration action prev pv st =
        .ok (errorReturn "❌ Error: Start time must be within the last 24 hours." prev, st)) := by
  constructor
  · intro h
    simp [wrapper_fn, hs, h]
  · intro h
    have h' : ¬ t > now := by omega
    simp [wrapper_fn, hs, h, h']

/-- Witness for C1: with `now = 0`, a start of `1` is in the future and
a start of `-90000` is more than 24 hours old; both are rejected with
an unchanged state. -/
theorem wrapper_fn_rejects_out_of_window_start_witness :
    wrapper_fn 0 "cam" (.sdatetime 1) (.dnum 5) "Summarize" .vnone .vnone
        ⟨[], [], [], 0, []⟩ =
      .ok (errorReturn "❌ Error: Start time cannot be in the future." .vnone,
        ⟨[], [], [], 0, []⟩) ∧
    wrapper_fn 0 "cam" (.sdatetime (-90000)) (.dnum 5) "Summarize" .vnone .vnone
        ⟨[], [], [], 0, []⟩ =
      .ok (errorReturn "❌ Error: Start time must be within the last 24 hours." .vnone,
        ⟨[], [], [], 0, []⟩) :=
  ⟨(wrapper_fn_rejects_out_of_window_start 0 "cam" (.sdatetime 1) (.dnum 5)
      "Summarize" .vnone .vnone ⟨[], [], [], 0, []⟩ 1 rfl).1 (by decide),
   (wrapper_fn_rejects_out_of_window_start 0 "cam" (.sdatetime (-90000)) (.dnum 5)
      "Summarize" .vnone .vnone ⟨[], [], [], 0, []⟩ (-90000) rfl).2 (by decide)⟩

/-- C2: with a start time inside the 24-hour window, a duration on which
`int()` raises, or whose integer value is not positive, is rejected with
the literal duration error message and the state — hence the
`process_video` call trace — is untouched. -/
theorem wrapper_fn_rejects_bad_duration (now : Int) (camera : String)
    (start : StartInput) (duration : DurationInput) (action : String)
    (prev pv : PyVal) (st : PAPState) (t : Int)
    (hs : startToTime start = some t) (h1 : ¬ t > now) (h2 : ¬ t < now - 86400)
    (hdur : duration = .dbad ∨ ∃ n, duration = .dnum n ∧ n ≤ 0) :
    wrapper_fn now camera start duration action prev pv st =
      .ok (errorReturn "❌ Error: Duration must be a number greater than 0 seconds." prev, st) := by
  rcases hdur with h | ⟨n, hn, hle⟩
  · subst h
    simp [wrapper_fn, hs, h1, h2]
  · subst hn
    simp [wrapper_fn, hs, h1, h2, hle]

/-- Witness for C2: with `now = 100000`, a valid start of `90000` and a
duration of `0` seconds is rejected with an unchanged state. -/
theorem wrapper_fn_rejects_bad_duration_witness :
    wrapper_fn 100000 "cam" (.sdatetime 90000) (.dnum 0) "Summarize" .vnone .vnone
        ⟨[], [], [], 0, []⟩ =
      .ok (errorReturn "❌ Error: Duration must be a number greater than 0 seconds." .vnone,
        ⟨[], [], [], 0, []⟩) :=
  wrapper_fn_rejects_bad_duration 100000 "cam" (.sdatetime 90000) (.dnum 0)
    "Summarize" .vnone .vnone ⟨[], [], [], 0, []⟩ 90000 rfl (by decide) (by decide)
    (Or.inr ⟨0, rfl, by decide⟩)

/-- C3: with a valid start time and a positive integer duration, a
submission whose end time `start + duration` lies after `now` is
rejected with the literal end-time error message and the state — hence
the `process_video` call trace — is untouched. -/
theorem wrapper_fn_rejects_future_end (now : Int) (camera : String)
    (start : StartInput) (d : Int) (action : String)
    (prev pv : PyVal) (st : PAPState) (t : Int)
    (hs : startToTime start = some t) (h1 : ¬ t > now) (h2 : ¬ t < now - 86400)
    (h3 : 0 < d) (h4 : t + d > now) :
    wrapper_fn now camera start (.dnum d) action prev pv st =
      .ok (errorReturn "❌ Error: End time (start + duration) cannot be in the future." prev, st) := by
  have h3' : ¬ d ≤ 0 := by omega
  simp [wrapper_fn, hs, h1, h2, h3', h4]

/-- Witness for C3: with `now = 100000`, a start of `99990` and a
duration of `60` seconds overshoots `now` and is rejected with an
unchanged state. -/
theorem wrapper_fn_rejects_future_end_witness :
    wrapper_fn 100000 "cam" (.sdatetime 99990) (.dnum 60) "Summarize" .vnone .vnone
        ⟨[], [], [], 0, []⟩ =
      .ok (errorReturn "❌ Error: End time (start + duration) cannot be in the future." .vnone,
        ⟨[], [], [], 0, []⟩) :=
  wrapper_fn_rejects_future_end 100000 "cam" (.sdatetime 99990) 60 "Summarize"
    .vnone .vnone ⟨[], [], [], 0, []⟩ 99990 rfl (by decide) (by decide) (by decide)
    (by decide)

/-- The collaborator response of claim C4:
`{"status": "success", "summary_id": s}`. -/
def summarizeResult (s : String) : PyVal :=
  .vdict (.cons "status" (.vstr "success") (.cons "summary_id" (.vstr s) .nil))

/-- C4: a valid `"Summarize"` submission whose collaborator response is
`{"status": "success", "summary_id": s}` with `s` non-empty makes
`process_and_poll` register a freshly started poll thread with a fresh
stop event in `polling_threads` under key `s`; when an entry for `s`
already existed, its stop event is signalled (and only then), and the
entry is replaced. -/
theorem process_and_poll_registers (camera : String) (start : Int)
    (duration : DurationInput) (st : PAPState) (s : String) (hs : s ≠ "") :
    ∃ st',
      process_and_poll camera start duration "Summarize" (summarizeResult s) st =
        .ok (summarizeResult s, st') ∧
      pollLookup st'.pollingThreads (.vstr s) = some ⟨st.nextId + 1, st.nextId⟩ ∧
      st'.started = st.started ++ [st.nextId + 1] ∧
      (∀ e, pollLookup st.pollingThreads (.vstr s) = some e →
        st'.signalled = st.signalled ++ [e.stop]) ∧
      (pollLookup st.pollingThreads (.vstr s) = none →
        st'.signalled = st.signalled) ∧
      st'.pvCalls = st.pvCalls ++ [⟨camera, start, duration, "Summarize"⟩] := by
  have hact : ("Summarize" : String) ≠ "Add to Search" := by decide
  have hk1 : ("status" : String) ≠ "summary_id" := by decide
  have hie : s.isEmpty = false := by
    cases h : s.isEmpty
    · rfl
    · exact absurd ((String.isEmpty_iff s).mp h) hs
  have htr : (PyVal.vstr s).truthy = true := by
    simp [PyVal.truthy, hie]
  have hext : extract_summary_id (.vstr s) = .vstr s :=
    extract_summary_id_truthy_non_dict _ htr rfl
  rcases hlk : pollLookup st.pollingThreads (.vstr s) with _ | e
  · refine ⟨⟨pollAssign st.pollingThreads (.vstr s) ⟨st.nextId + 1, st.nextId⟩,
      st.signalled, st.started ++ [st.nextId + 1], st.nextId + 2,
      st.pvCalls ++ [⟨camera, start, duration, "Summarize"⟩]⟩,
      ?_, ?_, ?_, ?_, ?_, ?_⟩
    · simp [process_and_poll, hact, summarizeResult, PyVal.get, PyVal.getItem,
        PyEntries.lookup, hk1, hext, htr, hlk, Bind.bind, Except.bind]
    · exact pollLookup_pollAssign_self _ _ _
    · rfl
    · intro e' he'; exact Option.noConfusion he'
    · intro _; rfl
    · rfl
  · refine ⟨⟨pollAssign st.pollingThreads (.vstr s) ⟨st.nextId + 1, st.nextId⟩,
      st.signalled ++ [e.stop], st.started ++ [st.nextId + 1], st.nextId + 2,
      st.pvCalls ++ [⟨camera, start, duration, "Summarize"⟩]⟩,
      ?_, ?_, ?_, ?_, ?_, ?_⟩
    · simp [process_and_poll, hact, summarizeResult, PyVal.get, PyVal.getItem,
        PyEntries.lookup, hk1, hext, htr, hlk, Bind.bind, Except.bind]
    · exact pollLookup_pollAssign_self _ _ _
    · rfl
    · intro e' he'
      injection he' with h
      subst h
      rfl
    · intro h; exact Option.noConfusion h
    · rfl

/-- Witness for C4: registering `"abc123"` when an entry for it is
already present; the new entry replaces the old one and the old stop
event is signalled. -/
theorem process_and_poll_registers_witness :
    ∃ st',
      process_and_poll "cam" 0 (.dnum 5) "Summarize" (summarizeResult "abc123")
          ⟨[(.vstr "abc123", ⟨1, 0⟩)], [], [1], 2, []⟩ =
        .ok (summarizeResult "abc123", st') ∧
      pollLookup st'.pollingThreads (.vstr "abc123") = some ⟨3, 2⟩ ∧
      st'.started = [1] ++ [3] ∧
      (∀ e, pollLookup [(PyVal.vstr "abc123", (⟨1, 0⟩ : PollEntry))] (.vstr "abc123") = some e →
        st'.signalled = [] ++ [e.stop]) ∧
      (pollLookup [(PyVal.vstr "abc123", (⟨1, 0⟩ : PollEntry))] (.vstr "abc123") = none →
        st'.signalled = []) ∧
      st'.pvCalls = [] ++ [⟨"cam", 0, .dnum 5, "Summarize"⟩] :=
  process_and_poll_registers "cam" 0 (.dnum 5)
    ⟨[(.vstr "abc123", ⟨1, 0⟩)], [], [1], 2, []⟩ "abc123" (by decide)

/-- C5: a run of the background poll loop leaves every piece of state
outside its own locals unchanged: the `status_output = markdown_output`
and `status_output = error_markdown` statements rebind the loop's local
name only (the parameter holds the component's string value, not a
reference to the component), so the shared UI state the interface reads
is returned exactly as it was handed in and the UI never observes the
update through it. -/
theorem poll_summary_status_frame (summary_id : String) (fetch : Nat → FetchCall)
    (stopSet : Nat → Bool) (fuel k : Nat) (status_output : String)
    (shared : SharedUI) :
    (poll_summary_status summary_id fetch stopSet fuel k status_output shared).shared
      = shared := by
  induction fuel generalizing k status_output with
  | zero => rfl
  | succ n ih =>
      by_cases h : stopSet k
      · simp [poll_summary_status, h]
      · rcases hit : pollIter summary_id (fetch k) with out | out
        · simp [poll_summary_status, h, hit]
        · simp [poll_summary_status, h, hit, ih]

/-- An iteration that falls through is a `cont` with some payload. -/
theorem IterOut.isCont_iff_cont (i : IterOut) :
    i.isCont = true ↔ ∃ out, i = .cont out := by
  cases i with
  | brk out => simp [IterOut.isCont]
  | cont out => simp [IterOut.isCont]

/-- C6: the poll loop exits as soon as an exit condition occurs.  If the
first `n` checks find the stop event clear and the first `n` iterations
fall through (non-terminal status, no exception) — each inserting one
`time.sleep(10)`, for `10 * n` slept seconds in total — then: when check
`n` finds the stop event set the loop exits as `stopped`, and when check
`n` is clear but iteration `n` breaks (status `completed` or `failed`,
or an exception) the loop exits as `broke` with the local
`status_output` holding that iteration's markdown. -/
theorem poll_summary_status_exits (summary_id : String) (fetch : Nat → FetchCall)
    (stopSet : Nat → Bool) (n : Nat) :
    ∀ fuel k status_output shared, n < fuel →
      (∀ j, j < n → stopSet (k + j) = false ∧
        (pollIter summary_id (fetch (k + j))).isCont = true) →
      (stopSet (k + n) = true →
        (poll_summary_status summary_id fetch stopSet fuel k status_output shared).exit
            = .stopped ∧
        (poll_summary_status summary_id fetch stopSet fuel k status_output shared).sleptSeconds
            = 10 * n) ∧
      (∀ md, stopSet (k + n) = false →
        pollIter summary_id (fetch (k + n)) = .brk md →
        (poll_summary_status summary_id fetch stopSet fuel k status_output shared).exit
            = .broke ∧
        (poll_summary_status summary_id fetch stopSet fuel k status_output shared).status_output
            = md ∧
        (poll_summary_status summary_id fetch stopSet fuel k status_output shared).sleptSeconds
            = 10 * n) := by
  induction n with
  | zero =>
      intro fuel k status_output shared hfuel _
      match fuel, hfuel with
      | fuel + 1, _ =>
        constructor
        · intro hstop
          rw [Nat.add_zero] at hstop
          simp [poll_summary_status, hstop]
        · intro md hstop hbrk
          rw [Nat.add_zero] at hstop
          rw [Nat.add_zero] at hbrk
          simp [poll_summary_status, hstop, hbrk]
  | succ m ih =>
      intro fuel k status_output shared hfuel hrun
      match fuel, hfuel with
      | fuel + 1, hfuel =>
        obtain ⟨hstop0, hcont0⟩ := hrun 0 (Nat.succ_pos m)
        rw [Nat.add_zero] at hstop0 hcont0
        obtain ⟨out, hout⟩ := (IterOut.isCont_iff_cont _).mp hcont0
        have hrun' : ∀ j, j < m → stopSet ((k + 1) + j) = false ∧
            (pollIter summary_id (fetch ((k + 1) + j))).isCont = true := by
          intro j hj
          have hj' := hrun (j + 1) (by omega)
          have hidx : k + (j + 1) = (k + 1) + j := by omega
          rwa [hidx] at hj'
        have ihres := ih fuel (k + 1) out shared (by omega) hrun'
        have hidx : (k + 1) + m = k + (m + 1) := by omega
        rw [hidx] at ihres
        have hunfold :
            poll_summary_status summary_id fetch stopSet (fuel + 1) k status_output shared
              = ⟨(poll_summary_status summary_id fetch stopSet fuel (k + 1) out shared).status_output,
                 (poll_summary_status summary_id fetch stopSet fuel (k + 1) out shared).shared,
                 (poll_summary_status summary_id fetch stopSet fuel (k + 1) out shared).exit,
                 (poll_summary_status summary_id fetch stopSet fuel (k + 1) out shared).sleptSeconds + 10⟩ := by
          simp [poll_summary_status, hstop0, hout]
        constructor
        · intro hstopn
          obtain ⟨he, hs⟩ := ihres.1 hstopn
          rw [hunfold]
          exact ⟨he, by simp [hs]; omega⟩
        · intro md hstopn hbrkn
          obtain ⟨he, hso, hs⟩ := ihres.2 md hstopn hbrkn
          rw [hunfold]
          exact ⟨he, hso, by simp [hs]; omega⟩

/-- Witness for C6: a loop whose stop event is already set exits as
`stopped` without sleeping; a loop that reads a `processing` status once
and a `completed` status next sleeps once (10 seconds) and exits as
`broke`, its local holding the final markdown. -/
theorem poll_summary_status_exits_witness :
    ((poll_summary_status "sid" (fun _ => .raises "boom") (fun _ => true)
        1 0 "" ⟨"", ""⟩).exit = .stopped ∧
      (poll_summary_status "sid" (fun _ => .raises "boom") (fun _ => true)
        1 0 "" ⟨"", ""⟩).sleptSeconds = 10 * 0) ∧
    ((poll_summary_status "sid"
        (fun j => if j = 0
          then .returns (.rdict (.cons "status" (.vstr "processing") .nil))
          else .returns (.rdict (.cons "status" (.vstr "completed") .nil)))
        (fun _ => false) 3 0 "" ⟨"", ""⟩).exit = .broke ∧
      (poll_summary_status "sid"
        (fun j => if j = 0
          then .returns (.rdict (.cons "status" (.vstr "processing") .nil))
          else .returns (.rdict (.cons "status" (.vstr "completed") .nil)))
        (fun _ => false) 3 0 "" ⟨"", ""⟩).status_output
          = formatStatusMarkdown "sid" (.cons "status" (.vstr "completed") .nil) ∧
      (poll_summary_status "sid"
        (fun j => if j = 0
          then .returns (.rdict (.cons "status" (.vstr "processing") .nil))
          else .returns (.rdict (.cons "status" (.vstr "completed") .nil)))
        (fun _ => false) 3 0 "" ⟨"", ""⟩).sleptSeconds = 10 * 1) :=
  ⟨(poll_summary_status_exits "sid" (fun _ => .raises "boom") (fun _ => true)
      0 1 0 "" ⟨"", ""⟩ (by omega)
      (fun j hj => absurd hj (by omega))).1 rfl,
   (poll_summary_status_exits "sid"
      (fun j => if j = 0
        then .returns (.rdict (.cons "status" (.vstr "processing") .nil))
        else .returns (.rdict (.cons "status" (.vstr "completed") .nil)))
      (fun _ => false) 1 3 0 "" ⟨"", ""⟩ (by omega)
      (fun j hj => by
        interval_cases j
        exact ⟨rfl, rfl⟩)).2
     (formatStatusMarkdown "sid" (.cons "status" (.vstr "completed") .nil))
     rfl rfl⟩
